import Mathlib

/-!
Verification of `conwaysPeriodicMultithreaded.py`: Conway's Game of Life on a
toroidal grid with a sequential and a multiprocessing stepping strategy.

The Python source is shallowly embedded below.  Python integers are `Nat`
(indices that may go negative before the `%` reduction are `Int`, reduced with
`Int.emod`, which agrees with Python's `%` for positive divisors), Python lists
are Lean `List`s, `None`-returning functions return `Option`, and the
measured wall-clock times are an abstract oracle `elapsed : Nat -> Rat`.

A crucial behavioural point that the embedding preserves: in
`iterateSingleCore` the Python source builds `changeList` with the *lazy*
builtins `map`/`filter`, so each `neighborChecks` call is only executed when
the commit loop pulls the next element — i.e. after the writes of all earlier
points of the same generation have already been applied.  `iterateSingleCore`
is therefore an in-place sequential update (modelled as a left fold carrying
the mutated grid), while `iterateMultiCore` uses `multiprocessing.Pool.map`,
which evaluates every `neighborChecks` call against pickled copies of the grid
taken before any write and returns the fully materialised result list before
the commit loop starts (modelled as: compute all updates against the frozen
grid, then fold the writes).
-/

/-- `RESURRECTION_THRESHOLD = 3`: neighbor count at which a dead cell revives. -/
def RESURRECTION_THRESHOLD : Nat := 3

/-- `LIFE_THRESHOLD = 2`: the other neighbor count at which an alive cell survives. -/
def LIFE_THRESHOLD : Nat := 2

/-- `ITERATION_COUNT = 1000`: number of iterations performed by `Grid.run`. -/
def ITERATION_COUNT : Nat := 1000

/-- `OUTPUT_TYPE = None`: output mode; `run` renders only when it is `'Console'`. -/
def OUTPUT_TYPE : Option String := none

/-- `DEAD_CHARACTER = '  '`. -/
def DEAD_CHARACTER : String := "  "

/-- `ALIVE_CHARACTER = '[]'`. -/
def ALIVE_CHARACTER : String := "[]"

/-- The `Grid` class: row count, column count and the `rows x cols` matrix of
0/1 cell values (`grid` attribute, a list of integer lists). -/
structure Grid where
  rows : Nat
  cols : Nat
  grid : List (List Nat)
deriving DecidableEq, Repr

/-- `Grid.__init__`: `self.grid = [[1 if (i, k) in _startOn else 0
for i in range(_cols)] for k in range(_rows)]`.  Note that the outer index `k`
is the row and the inner index `i` is the column, while the membership test is
`(i, k) in _startOn` — so a seed entry is matched as `(column, row)`. -/
def Grid.init (rows cols : Nat) (startOn : List (Nat × Nat)) : Grid :=
  { rows := rows
    cols := cols
    grid := (List.range rows).map (fun k =>
      (List.range cols).map (fun i => if (i, k) ∈ startOn then 1 else 0)) }

/-- Reading `self.grid[i][j]`.  All reads performed by the source use in-range
indices; the default `0` is never hit on those. -/
def Grid.cell (g : Grid) (i j : Nat) : Nat :=
  (g.grid.getD i []).getD j 0

/-- Python's `i % n` for an `Int` index and a `Nat` modulus (the result of
`Int.emod` is non-negative for a positive modulus, exactly like Python). -/
def wrapIdx (n : Nat) (i : Int) : Nat :=
  (i % (n : Int)).toNat

/-- The nested sum of `Grid.neighborChecks`:
`sum(sum(0 if (i==x and k==y) else self.grid[i%self.rows][k%self.cols]
for i in range(x-1, x+2)) for k in range(y-1, y+2))`. -/
def Grid.neighborCount (g : Grid) (x y : Nat) : Nat :=
  List.sum (List.map (fun k =>
    List.sum (List.map (fun i =>
      if i = (x : Int) ∧ k = (y : Int) then 0
      else g.cell (wrapIdx g.rows i) (wrapIdx g.cols k))
      [(x : Int) - 1, (x : Int), (x : Int) + 1]))
    [(y : Int) - 1, (y : Int), (y : Int) + 1])

/-- `Grid.neighborChecks`: returns `(point, 1)` when the cell is dead (value
falsy, i.e. `0`) and the count equals `RESURRECTION_THRESHOLD`; `(point, 0)`
when the cell is truthy and the count is neither `LIFE_THRESHOLD` nor
`RESURRECTION_THRESHOLD`; otherwise falls off the end, returning `None`. -/
def Grid.neighborChecks (g : Grid) (p : Nat × Nat) : Option ((Nat × Nat) × Nat) :=
  if g.neighborCount p.1 p.2 = RESURRECTION_THRESHOLD ∧ g.cell p.1 p.2 = 0 then
    some (p, 1)
  else if g.neighborCount p.1 p.2 ≠ LIFE_THRESHOLD ∧
      g.neighborCount p.1 p.2 ≠ RESURRECTION_THRESHOLD ∧ g.cell p.1 p.2 ≠ 0 then
    some (p, 0)
  else
    none

/-- The write `self.grid[i][j] = v`. -/
def Grid.setCell (g : Grid) (i j v : Nat) : Grid :=
  { g with grid := g.grid.set i ((g.grid.getD i []).set j v) }

/-- `grid1Ds = [(i // self.cols, i % self.cols) for i in range(self.rows * self.cols)]`:
the row-major flattened coordinate list. -/
def Grid.points (g : Grid) : List (Nat × Nat) :=
  (List.range (g.rows * g.cols)).map (fun i => (i / g.cols, i % g.cols))

/-- One pull of the lazy `filter(..., map(self.neighborChecks, grid1Ds))`
pipeline in `iterateSingleCore` followed by the body of the commit loop:
evaluate `neighborChecks` against the *current* (already partially written)
grid and apply the write if an update was produced. -/
def Grid.singleStep (g : Grid) (p : Nat × Nat) : Grid :=
  match g.neighborChecks p with
  | some pv => g.setCell pv.1.1 pv.1.2 pv.2
  | none => g

/-- `Grid.iterateSingleCore` (timing stripped): because `map`/`filter` are
lazy, evaluation of each point interleaves with the writes for the earlier
points, i.e. a left fold of `singleStep` over the flattened points. -/
def Grid.iterateSingleCore (g : Grid) : Grid :=
  g.points.foldl Grid.singleStep g

/-- The commit loop `for point, v in ...: self.grid[point[0]][point[1]] = v`
applied to a fully materialised update list. -/
def Grid.applyUpdates (g : Grid) (us : List ((Nat × Nat) × Nat)) : Grid :=
  us.foldl (fun acc pv => acc.setCell pv.1.1 pv.1.2 pv.2) g

/-- `Grid.iterateMultiCore` (timing stripped): `p.map(self.neighborChecks,
grid1Ds)` evaluates every point against (pickled copies of) the grid as it was
at the start of the generation and returns the whole result list, whose
non-`None` members are then committed in order by the invoking process. -/
def Grid.iterateMultiCore (g : Grid) : Grid :=
  g.applyUpdates ((g.points.map g.neighborChecks).filterMap id)

/-- `Grid.__str__`: newline-joined rows of dead/alive glyphs. -/
def Grid.render (g : Grid) : String :=
  String.intercalate "\n" ((List.range g.rows).map (fun i =>
    String.join ((List.range g.cols).map (fun k =>
      if g.cell i k = 0 then DEAD_CHARACTER else ALIVE_CHARACTER))))

/-- Observable outcome of `Grid.run`: the final grid state (the Python method
mutates the grid in place), the accumulated `timeSum`, the returned mean
iteration time in milliseconds, everything printed to the console, and the
number of loop iterations that were executed. -/
structure RunResult where
  grid : Grid
  timeSum : Rat
  meanMs : Rat
  printed : List String
  loopIters : Nat

/-- One iteration of the loop body of `Grid.run`.  `elapsed n` is the
wall-clock time measured by iteration `n`'s `iterate*Core` call (an abstract
oracle; the multiprocessing pool itself has no observable effect on the grid
beyond the step function already modelled). -/
def Grid.runStep (processing : String) (elapsed : Nat → Rat)
    (st : Grid × Rat × List String × Nat) (n : Nat) : Grid × Rat × List String × Nat :=
  match st with
  | (g, timeSum, out, iters) =>
    let out := if OUTPUT_TYPE = some "Console" then out ++ [g.render] else out
    if processing = "Multi" then (g.iterateMultiCore, timeSum + elapsed n, out, iters + 1)
    else if processing = "Single" then (g.iterateSingleCore, timeSum + elapsed n, out, iters + 1)
    else (g, timeSum, out ++ ["Please input a valid processing type."], iters + 1)

/-- `Grid.run`: loop the chosen strategy `ITERATION_COUNT` times and return
`timeSum * 1000 / ITERATION_COUNT`. -/
def Grid.run (g : Grid) (processing : String) (elapsed : Nat → Rat) : RunResult :=
  match (List.range ITERATION_COUNT).foldl (Grid.runStep processing elapsed)
      (g, 0, [], 0) with
  | (g1, timeSum, out, iters) =>
    ⟨g1, timeSum, timeSum * 1000 / (ITERATION_COUNT : Rat), out, iters⟩

/-- The eight neighbor offsets `(row offset, column offset)` in the iteration
order of the nested loops of `neighborChecks` (column-offset outer), the
center `(0, 0)` excluded. -/
def neighborOffsets : List (Int × Int) :=
  [(-1, -1), (0, -1), (1, -1), (-1, 0), (1, 0), (-1, 1), (0, 1), (1, 1)]

/-- The nine `(i, k)` loop-index pairs of `neighborChecks` before the
`% rows` / `% cols` reduction, in iteration order. -/
def windowList (x y : Nat) : List (Int × Int) :=
  [((x : Int) - 1, (y : Int) - 1), ((x : Int), (y : Int) - 1), ((x : Int) + 1, (y : Int) - 1),
   ((x : Int) - 1, (y : Int)),     ((x : Int), (y : Int)),     ((x : Int) + 1, (y : Int)),
   ((x : Int) - 1, (y : Int) + 1), ((x : Int), (y : Int) + 1), ((x : Int) + 1, (y : Int) + 1)]

/-- The nine wrapped coordinates `(i % rows, k % cols)` that `neighborChecks`
examines for `point = (x, y)`, in iteration order. -/
def Grid.windowCoords (g : Grid) (x y : Nat) : List (Nat × Nat) :=
  (windowList x y).map (fun ik => (wrapIdx g.rows ik.1, wrapIdx g.cols ik.2))

/-- `g.cellsBinary`: every stored cell value is `0` or `1`.  This is the data
model of the program: `Grid.__init__` writes only `0`/`1` and the commit loops
write only the `0`/`1` carried by update records. -/
def Grid.cellsBinary (g : Grid) : Bool :=
  g.grid.all (fun row => row.all (fun v => v ≤ 1))

/-- `g.allDead`: every stored cell value is `0`. -/
def Grid.allDead (g : Grid) : Bool :=
  g.grid.all (fun row => row.all (fun v => v = 0))

/-- The grid whose only alive cells are the 2×2 block with upper-left corner
`(r0, c0)`: cell `(r, c)` is `1` exactly when `r ∈ {r0, r0+1}` and
`c ∈ {c0, c0+1}`. -/
def blockGrid (rows cols r0 c0 : Nat) : Grid :=
  { rows := rows
    cols := cols
    grid := (List.range rows).map (fun r =>
      (List.range cols).map (fun c =>
        if (r = r0 ∨ r = r0 + 1) ∧ (c = c0 ∨ c = c0 + 1) then 1 else 0)) }

/-- A horizontal blinker (alive cells `(2,1)`, `(2,2)`, `(2,3)`) on a 5×5
grid; recall that `Grid.init` matches seed entries as `(column, row)`. -/
def blinkerGrid : Grid := Grid.init 5 5 [(1, 2), (2, 2), (3, 2)]

/-- The state of the grid inside `iterateSingleCore` after the lazy pipeline
has been pulled for the first `k` flattened points (and their writes, if any,
applied); the evaluation of point number `k` happens against exactly this
state. -/
def Grid.singleCoreUpTo (g : Grid) (k : Nat) : Grid :=
  (g.points.take k).foldl Grid.singleStep g

/-! ### Basic facts about the wrapped index -/

lemma wrapIdx_lt (n : Nat) (i : Int) (hn : 0 < n) : wrapIdx n i < n := by
  have h1 : 0 ≤ i % (n : Int) := Int.emod_nonneg i (by exact_mod_cast hn.ne')
  have h2 : i % (n : Int) < (n : Int) := Int.emod_lt_of_pos i (by exact_mod_cast hn)
  unfold wrapIdx
  omega

lemma wrapIdx_of_lt {n x : Nat} (hx : x < n) : wrapIdx n (x : Int) = x := by
  have h1 : (x : Int) % (n : Int) = (x : Int) :=
    Int.emod_eq_of_lt (by omega) (by exact_mod_cast hx)
  unfold wrapIdx
  omega

lemma wrapIdx_succ {n x : Nat} (hx : x < n) :
    wrapIdx n ((x : Int) + 1) = if x + 1 = n then 0 else x + 1 := by
  unfold wrapIdx
  split_ifs with h
  · have hn : ((x : Int) + 1) = (n : Int) := by omega
    rw [hn, Int.emod_self]
    rfl
  · have h1 : ((x : Int) + 1) % (n : Int) = (x : Int) + 1 :=
      Int.emod_eq_of_lt (by omega) (by omega)
    omega

lemma wrapIdx_pred {n x : Nat} (hn : 0 < n) (hx : x < n) :
    wrapIdx n ((x : Int) - 1) = if x = 0 then n - 1 else x - 1 := by
  unfold wrapIdx
  split_ifs with h
  · subst h
    have he : ((0 : Nat) : Int) - 1 = ((n : Int) - 1) + (n : Int) * (-1) := by ring
    rw [he, Int.add_mul_emod_self_left ((n : Int) - 1) (n : Int) (-1)]
    have h1 : ((n : Int) - 1) % (n : Int) = (n : Int) - 1 :=
      Int.emod_eq_of_lt (by omega) (by omega)
    omega
  · have h1 : ((x : Int) - 1) % (n : Int) = (x : Int) - 1 :=
      Int.emod_eq_of_lt (by omega) (by omega)
    omega

/-! ### Reindexing the neighbor sum -/

/-- The nested sum of `neighborChecks` is the sum of the wrapped cell values
over the eight non-center offsets. -/
lemma neighborCount_eq_offsets (g : Grid) (x y : Nat) :
    g.neighborCount x y =
      (neighborOffsets.map (fun de =>
        g.cell (wrapIdx g.rows ((x : Int) + de.1)) (wrapIdx g.cols ((y : Int) + de.2)))).sum := by
  have h1 : ¬((x : Int) - 1 = (x : Int)) := by omega
  have h2 : ¬((x : Int) + 1 = (x : Int)) := by omega
  have h3 : ¬((y : Int) - 1 = (y : Int)) := by omega
  have h4 : ¬((y : Int) + 1 = (y : Int)) := by omega
  have e1 : (x : Int) + -1 = (x : Int) - 1 := by ring
  have e2 : (y : Int) + -1 = (y : Int) - 1 := by ring
  have e3 : (x : Int) + 0 = (x : Int) := by ring
  have e4 : (y : Int) + 0 = (y : Int) := by ring
  simp only [Grid.neighborCount, neighborOffsets, List.map_cons, List.map_nil,
    List.sum_cons, List.sum_nil, h1, h2, h3, h4, false_and, and_false, and_self,
    if_false, if_true, e1, e2, e3, e4]
  omega

/-- The nested sum of `neighborChecks`, written over the nine loop-index pairs
`windowList` (so that `Grid.windowCoords` is literally the list of wrapped
coordinates the sum reads). -/
lemma neighborCount_eq_window (g : Grid) (x y : Nat) :
    g.neighborCount x y =
      ((windowList x y).map (fun ik =>
        if ik.1 = (x : Int) ∧ ik.2 = (y : Int) then 0
        else g.cell (wrapIdx g.rows ik.1) (wrapIdx g.cols ik.2))).sum := by
  simp only [Grid.neighborCount, windowList, List.map_cons, List.map_nil,
    List.sum_cons, List.sum_nil]
  omega

/-! ### Cell access lemmas -/

lemma getD_map_range {α : Type} {n i : Nat} (f : Nat → α) (d : α) (h : i < n) :
    ((List.range n).map f).getD i d = f i := by
  rw [List.getD_eq_getElem _ _ (by simpa using h)]
  simp

lemma init_cell (rows cols : Nat) (startOn : List (Nat × Nat)) {r c : Nat}
    (hr : r < rows) (hc : c < cols) :
    (Grid.init rows cols startOn).cell r c = if (c, r) ∈ startOn then 1 else 0 := by
  unfold Grid.init Grid.cell
  rw [getD_map_range _ _ hr, getD_map_range _ _ hc]

lemma blockGrid_cell (rows cols r0 c0 : Nat) {r c : Nat} (hr : r < rows) (hc : c < cols) :
    (blockGrid rows cols r0 c0).cell r c =
      (if r = r0 ∨ r = r0 + 1 then 1 else 0) * (if c = c0 ∨ c = c0 + 1 then 1 else 0) := by
  unfold blockGrid Grid.cell
  rw [getD_map_range _ _ hr, getD_map_range _ _ hc]
  split_ifs <;> simp_all

lemma cell_le_one_of_cellsBinary {g : Grid} (h : g.cellsBinary = true) (i j : Nat) :
    g.cell i j ≤ 1 := by
  unfold Grid.cellsBinary at h
  rw [List.all_eq_true] at h
  unfold Grid.cell
  by_cases hi : i < g.grid.length
  · have hroweq : g.grid.getD i [] = g.grid[i] := List.getD_eq_getElem _ _ hi
    rw [hroweq]
    have hrow := h (g.grid[i]) (List.getElem_mem hi)
    rw [List.all_eq_true] at hrow
    by_cases hj : j < (g.grid[i]).length
    · rw [List.getD_eq_getElem _ _ hj]
      have := hrow ((g.grid[i])[j]) (List.getElem_mem hj)
      simpa using this
    · rw [List.getD_eq_default _ _ (by omega)]
      omega
  · have hroweq : g.grid.getD i [] = [] := List.getD_eq_default _ _ (by omega)
    rw [hroweq]
    simp [List.getD]

lemma cell_eq_zero_of_allDead {g : Grid} (h : g.allDead = true) (i j : Nat) :
    g.cell i j = 0 := by
  unfold Grid.allDead at h
  rw [List.all_eq_true] at h
  unfold Grid.cell
  by_cases hi : i < g.grid.length
  · have hroweq : g.grid.getD i [] = g.grid[i] := List.getD_eq_getElem _ _ hi
    rw [hroweq]
    have hrow := h (g.grid[i]) (List.getElem_mem hi)
    rw [List.all_eq_true] at hrow
    by_cases hj : j < (g.grid[i]).length
    · rw [List.getD_eq_getElem _ _ hj]
      have := hrow ((g.grid[i])[j]) (List.getElem_mem hj)
      simpa using this
    · rw [List.getD_eq_default _ _ (by omega)]
  · have hroweq : g.grid.getD i [] = [] := List.getD_eq_default _ _ (by omega)
    rw [hroweq]
    simp [List.getD]

/-! ### Flattened points -/

lemma mem_points {g : Grid} {p : Nat × Nat} (hp : p ∈ g.points) :
    p.1 < g.rows ∧ p.2 < g.cols := by
  unfold Grid.points at hp
  rw [List.mem_map] at hp
  obtain ⟨i, hi, rfl⟩ := hp
  rw [List.mem_range] at hi
  have hc : 0 < g.cols := by
    rcases Nat.eq_zero_or_pos g.cols with h | h
    · rw [h, Nat.mul_zero] at hi
      omega
    · exact h
  constructor
  · exact (Nat.div_lt_iff_lt_mul hc).mpr hi
  · exact Nat.mod_lt _ hc

/-! ### When every evaluation returns `None`, both strategies fix the grid -/

lemma foldl_singleStep_of_none {g : Grid} {l : List (Nat × Nat)}
    (h : ∀ p ∈ l, g.neighborChecks p = none) :
    l.foldl Grid.singleStep g = g := by
  induction l with
  | nil => rfl
  | cons a l ih =>
    have ha : g.neighborChecks a = none := h a (by simp)
    have hstep : g.singleStep a = g := by
      unfold Grid.singleStep
      rw [ha]
    rw [List.foldl_cons, hstep]
    exact ih (fun p hp => h p (by simp [hp]))

lemma iterateSingleCore_of_none {g : Grid}
    (h : ∀ p ∈ g.points, g.neighborChecks p = none) :
    g.iterateSingleCore = g :=
  foldl_singleStep_of_none h

lemma iterateMultiCore_of_none {g : Grid}
    (h : ∀ p ∈ g.points, g.neighborChecks p = none) :
    g.iterateMultiCore = g := by
  unfold Grid.iterateMultiCore
  have hnil : (g.points.map g.neighborChecks).filterMap id = [] := by
    rw [List.filterMap_eq_nil_iff]
    intro a ha
    rw [List.mem_map] at ha
    obtain ⟨p, hp, rfl⟩ := ha
    simpa using h p hp
  rw [hnil]
  rfl

/-! ### The 2×2 block is a still life: indicator arithmetic -/

/-- Indicator of membership in the two-row band `{r0, r0+1}`. -/
def rowInd (r0 a : Nat) : Nat := if a = r0 ∨ a = r0 + 1 then 1 else 0

lemma rowInd_le_one (r0 a : Nat) : rowInd r0 a ≤ 1 := by
  unfold rowInd
  split_ifs <;> omega

lemma rowInd_sum_le (n r0 x : Nat) (h3 : 3 ≤ n) (hx : x < n) :
    rowInd r0 (wrapIdx n ((x : Int) - 1)) + rowInd r0 x
      + rowInd r0 (wrapIdx n ((x : Int) + 1)) ≤ 2 := by
  rw [wrapIdx_pred (by omega) hx, wrapIdx_succ hx]
  unfold rowInd
  split_ifs <;> first | omega | (simp only [or_false, false_or] at *; omega)

lemma rowInd_sum_eq (n r0 x : Nat) (h3 : 3 ≤ n) (hr : r0 + 1 < n)
    (hx : x = r0 ∨ x = r0 + 1) :
    rowInd r0 (wrapIdx n ((x : Int) - 1)) + rowInd r0 x
      + rowInd r0 (wrapIdx n ((x : Int) + 1)) = 2 := by
  have hxn : x < n := by omega
  rw [wrapIdx_pred (by omega) hxn, wrapIdx_succ hxn]
  unfold rowInd
  split_ifs <;> first | omega | (simp only [or_false, false_or] at *; omega)

/-- On a sufficiently large grid every `neighborChecks` call on the 2×2 block
grid reports no change. -/
lemma blockGrid_checks_none (rows cols r0 c0 : Nat) (h3r : 3 ≤ rows) (h3c : 3 ≤ cols)
    (hr : r0 + 1 < rows) (hc : c0 + 1 < cols) (x y : Nat) (hx : x < rows) (hy : y < cols) :
    (blockGrid rows cols r0 c0).neighborChecks (x, y) = none := by
  have hrpos : 0 < rows := by omega
  have hcpos : 0 < cols := by omega
  set g := blockGrid rows cols r0 c0 with hg
  -- the eight wrapped neighbor cells as products of band indicators
  have hcellw : ∀ (i k : Int), g.cell (wrapIdx rows i) (wrapIdx cols k)
      = rowInd r0 (wrapIdx rows i) * rowInd c0 (wrapIdx cols k) := by
    intro i k
    rw [hg, blockGrid_cell rows cols r0 c0 (wrapIdx_lt rows i hrpos) (wrapIdx_lt cols k hcpos)]
    unfold rowInd
    rfl
  have hrows : g.rows = rows := rfl
  have hcols : g.cols = cols := rfl
  have hcount : g.neighborCount x y =
      rowInd r0 (wrapIdx rows ((x : Int) - 1)) * rowInd c0 (wrapIdx cols ((y : Int) - 1))
    + rowInd r0 x * rowInd c0 (wrapIdx cols ((y : Int) - 1))
    + rowInd r0 (wrapIdx rows ((x : Int) + 1)) * rowInd c0 (wrapIdx cols ((y : Int) - 1))
    + rowInd r0 (wrapIdx rows ((x : Int) - 1)) * rowInd c0 y
    + rowInd r0 (wrapIdx rows ((x : Int) + 1)) * rowInd c0 y
    + rowInd r0 (wrapIdx rows ((x : Int) - 1)) * rowInd c0 (wrapIdx cols ((y : Int) + 1))
    + rowInd r0 x * rowInd c0 (wrapIdx cols ((y : Int) + 1))
    + rowInd r0 (wrapIdx rows ((x : Int) + 1)) * rowInd c0 (wrapIdx cols ((y : Int) + 1)) := by
    rw [neighborCount_eq_offsets]
    simp only [neighborOffsets, List.map_cons, List.map_nil, List.sum_cons, List.sum_nil,
      hrows, hcols, hcellw]
    have e1 : (x : Int) + -1 = (x : Int) - 1 := by ring
    have e2 : (y : Int) + -1 = (y : Int) - 1 := by ring
    have e3 : (x : Int) + 0 = (x : Int) := by ring
    have e4 : (y : Int) + 0 = (y : Int) := by ring
    rw [e1, e2, e3, e4, wrapIdx_of_lt hx, wrapIdx_of_lt hy]
    ring
  have hcell : g.cell x y = rowInd r0 x * rowInd c0 y := by
    rw [hg, blockGrid_cell rows cols r0 c0 hx hy]
    unfold rowInd
    rfl
  by_cases hbx : x = r0 ∨ x = r0 + 1
  · by_cases hby : y = c0 ∨ y = c0 + 1
    · -- the cell is one of the four block cells: it has exactly 3 alive neighbors
      have hBx : rowInd r0 x = 1 := by unfold rowInd; split_ifs <;> tauto
      have hBy : rowInd c0 y = 1 := by unfold rowInd; split_ifs <;> tauto
      have hsr := rowInd_sum_eq rows r0 x h3r hr hbx
      have hsc := rowInd_sum_eq cols c0 y h3c hc hby
      have hA1 : rowInd r0 (wrapIdx rows ((x : Int) - 1))
          + rowInd r0 (wrapIdx rows ((x : Int) + 1)) = 1 := by omega
      have hD1 : rowInd c0 (wrapIdx cols ((y : Int) - 1))
          + rowInd c0 (wrapIdx cols ((y : Int) + 1)) = 1 := by omega
      have hAle := rowInd_le_one r0 (wrapIdx rows ((x : Int) - 1))
      have hCle := rowInd_le_one r0 (wrapIdx rows ((x : Int) + 1))
      have hDle := rowInd_le_one c0 (wrapIdx cols ((y : Int) - 1))
      have hFle := rowInd_le_one c0 (wrapIdx cols ((y : Int) + 1))
      have hAcase : (rowInd r0 (wrapIdx rows ((x : Int) - 1)) = 1
            ∧ rowInd r0 (wrapIdx rows ((x : Int) + 1)) = 0)
          ∨ (rowInd r0 (wrapIdx rows ((x : Int) - 1)) = 0
            ∧ rowInd r0 (wrapIdx rows ((x : Int) + 1)) = 1) := by omega
      have hDcase : (rowInd c0 (wrapIdx cols ((y : Int) - 1)) = 1
            ∧ rowInd c0 (wrapIdx cols ((y : Int) + 1)) = 0)
          ∨ (rowInd c0 (wrapIdx cols ((y : Int) - 1)) = 0
            ∧ rowInd c0 (wrapIdx cols ((y : Int) + 1)) = 1) := by omega
      have hcount3 : g.neighborCount x y = 3 := by
        rcases hAcase with ⟨hA, hC⟩ | ⟨hA, hC⟩ <;> rcases hDcase with ⟨hD, hF⟩ | ⟨hD, hF⟩ <;>
          rw [hcount, hA, hC, hD, hF, hBx, hBy] <;> ring
      have hcell1 : g.cell x y = 1 := by rw [hcell, hBx, hBy]
      unfold Grid.neighborChecks
      simp [hcount3, hcell1, RESURRECTION_THRESHOLD, LIFE_THRESHOLD]
    · -- dead cell: its neighbor count is a product of two band sums, never 3
      have hBy : rowInd c0 y = 0 := by unfold rowInd; split_ifs <;> tauto
      have hcell0 : g.cell x y = 0 := by rw [hcell, hBy]; ring
      have hprod : g.neighborCount x y =
          (rowInd r0 (wrapIdx rows ((x : Int) - 1)) + rowInd r0 x
            + rowInd r0 (wrapIdx rows ((x : Int) + 1)))
          * (rowInd c0 (wrapIdx cols ((y : Int) - 1)) + rowInd c0 y
            + rowInd c0 (wrapIdx cols ((y : Int) + 1))) := by
        rw [hcount, hBy]
        ring
      have hsr := rowInd_sum_le rows r0 x h3r hx
      have hsc := rowInd_sum_le cols c0 y h3c hy
      have hcn3 : g.neighborCount x y ≠ 3 := by
        have hr3 : rowInd r0 (wrapIdx rows ((x : Int) - 1)) + rowInd r0 x
            + rowInd r0 (wrapIdx rows ((x : Int) + 1)) = 0
          ∨ rowInd r0 (wrapIdx rows ((x : Int) - 1)) + rowInd r0 x
            + rowInd r0 (wrapIdx rows ((x : Int) + 1)) = 1
          ∨ rowInd r0 (wrapIdx rows ((x : Int) - 1)) + rowInd r0 x
            + rowInd r0 (wrapIdx rows ((x : Int) + 1)) = 2 := by omega
        have hc3 : rowInd c0 (wrapIdx cols ((y : Int) - 1)) + rowInd c0 y
            + rowInd c0 (wrapIdx cols ((y : Int) + 1)) = 0
          ∨ rowInd c0 (wrapIdx cols ((y : Int) - 1)) + rowInd c0 y
            + rowInd c0 (wrapIdx cols ((y : Int) + 1)) = 1
          ∨ rowInd c0 (wrapIdx cols ((y : Int) - 1)) + rowInd c0 y
            + rowInd c0 (wrapIdx cols ((y : Int) + 1)) = 2 := by omega
        rcases hr3 with h | h | h <;> rcases hc3 with h2 | h2 | h2 <;>
          rw [hprod, h, h2] <;> omega
      unfold Grid.neighborChecks
      simp [hcn3, hcell0, RESURRECTION_THRESHOLD, LIFE_THRESHOLD]
  · -- dead cell outside the block rows: same product argument
    have hBx : rowInd r0 x = 0 := by unfold rowInd; split_ifs <;> tauto
    have hcell0 : g.cell x y = 0 := by rw [hcell, hBx]; ring
    have hprod : g.neighborCount x y =
        (rowInd r0 (wrapIdx rows ((x : Int) - 1)) + rowInd r0 x
          + rowInd r0 (wrapIdx rows ((x : Int) + 1)))
        * (rowInd c0 (wrapIdx cols ((y : Int) - 1)) + rowInd c0 y
          + rowInd c0 (wrapIdx cols ((y : Int) + 1))) := by
      rw [hcount, hBx]
      ring
    have hsr := rowInd_sum_le rows r0 x h3r hx
    have hsc := rowInd_sum_le cols c0 y h3c hy
    have hcn3 : g.neighborCount x y ≠ 3 := by
      have hr3 : rowInd r0 (wrapIdx rows ((x : Int) - 1)) + rowInd r0 x
          + rowInd r0 (wrapIdx rows ((x : Int) + 1)) = 0
        ∨ rowInd r0 (wrapIdx rows ((x : Int) - 1)) + rowInd r0 x
          + rowInd r0 (wrapIdx rows ((x : Int) + 1)) = 1
        ∨ rowInd r0 (wrapIdx rows ((x : Int) - 1)) + rowInd r0 x
          + rowInd r0 (wrapIdx rows ((x : Int) + 1)) = 2 := by omega
      have hc3 : rowInd c0 (wrapIdx cols ((y : Int) - 1)) + rowInd c0 y
          + rowInd c0 (wrapIdx cols ((y : Int) + 1)) = 0
        ∨ rowInd c0 (wrapIdx cols ((y : Int) - 1)) + rowInd c0 y
          + rowInd c0 (wrapIdx cols ((y : Int) + 1)) = 1
        ∨ rowInd c0 (wrapIdx cols ((y : Int) - 1)) + rowInd c0 y
          + rowInd c0 (wrapIdx cols ((y : Int) + 1)) = 2 := by omega
      rcases hr3 with h | h | h <;> rcases hc3 with h2 | h2 | h2 <;>
        rw [hprod, h, h2] <;> omega
    unfold Grid.neighborChecks
    simp [hcn3, hcell0, RESURRECTION_THRESHOLD, LIFE_THRESHOLD]

/-! ### Distinctness of the wrapped window coordinates -/

lemma wrap_three_distinct (n x : Nat) (h3 : 3 ≤ n) (hx : x < n) :
    wrapIdx n ((x : Int) - 1) ≠ x ∧ wrapIdx n ((x : Int) - 1) ≠ wrapIdx n ((x : Int) + 1)
      ∧ x ≠ wrapIdx n ((x : Int) + 1) := by
  rw [wrapIdx_pred (by omega) hx, wrapIdx_succ hx]
  split_ifs <;> omega

/-- A 3×3 grid of pairs built from three distinct first components and three
distinct second components has no duplicates. -/
lemma nodup_nine (a1 a2 a3 b1 b2 b3 : Nat) (ha12 : a1 ≠ a2) (ha13 : a1 ≠ a3)
    (ha23 : a2 ≠ a3) (hb12 : b1 ≠ b2) (hb13 : b1 ≠ b3) (hb23 : b2 ≠ b3) :
    List.Nodup [(a1, b1), (a2, b1), (a3, b1), (a1, b2), (a2, b2), (a3, b2),
      (a1, b3), (a2, b3), (a3, b3)] := by
  simp only [List.nodup_cons, List.mem_cons, List.not_mem_nil, or_false, Prod.mk.injEq,
    not_or, List.nodup_nil, and_true]
  tauto

/-- On a grid with at least three rows and three columns, the nine wrapped
coordinates examined by `neighborChecks` at an in-bounds point are pairwise
distinct. -/
lemma windowCoords_nodup {g : Grid} {x y : Nat} (h3r : 3 ≤ g.rows) (h3c : 3 ≤ g.cols)
    (hx : x < g.rows) (hy : y < g.cols) :
    (g.windowCoords x y).Nodup := by
  obtain ⟨hr1, hr2, hr3⟩ := wrap_three_distinct g.rows x h3r hx
  obtain ⟨hc1, hc2, hc3⟩ := wrap_three_distinct g.cols y h3c hy
  unfold Grid.windowCoords windowList
  simp only [List.map_cons, List.map_nil]
  rw [wrapIdx_of_lt hx, wrapIdx_of_lt hy]
  exact nodup_nine _ _ _ _ _ _ hr1 hr2 hr3 hc1 hc2 hc3

/-! ### The run loop with an unrecognized processing type -/

lemma foldl_runStep_invalid (processing : String) (elapsed : Nat → Rat)
    (hm : processing ≠ "Multi") (hs : processing ≠ "Single")
    (l : List Nat) (g : Grid) (t : Rat) (out : List String) (c : Nat) :
    l.foldl (Grid.runStep processing elapsed) (g, t, out, c)
      = (g, t, out ++ List.replicate l.length "Please input a valid processing type.",
          c + l.length) := by
  induction l generalizing out c with
  | nil => simp
  | cons a l ih =>
    rw [List.foldl_cons]
    have hstep : Grid.runStep processing elapsed (g, t, out, c) a
        = (g, t, out ++ ["Please input a valid processing type."], c + 1) := by
      unfold Grid.runStep
      simp [hm, hs, OUTPUT_TYPE]
    rw [hstep, ih]
    simp [List.replicate_succ]
    omega

/-- With an unrecognized processing type, `run` performs no stepping, adds
nothing to `timeSum`, prints the error message every iteration, and returns
mean `0` after all `ITERATION_COUNT` iterations. -/
lemma run_invalid {g : Grid} {processing : String} {elapsed : Nat → Rat}
    (hm : processing ≠ "Multi") (hs : processing ≠ "Single") :
    g.run processing elapsed =
      ⟨g, 0, 0, List.replicate ITERATION_COUNT "Please input a valid processing type.",
        ITERATION_COUNT⟩ := by
  unfold Grid.run
  rw [foldl_runStep_invalid processing elapsed hm hs]
  simp

/-! ### Sums of 0/1 values count the 1s -/

lemma sum_map_binary {α : Type} (l : List α) (f : α → Nat) (h : ∀ a ∈ l, f a ≤ 1) :
    (l.map f).sum = l.countP (fun a => decide (f a = 1)) := by
  induction l with
  | nil => rfl
  | cons a l ih =>
    rw [List.map_cons, List.sum_cons, List.countP_cons,
      ih (fun b hb => h b (by simp [hb]))]
    have ha : f a ≤ 1 := h a (by simp)
    interval_cases hfa : f a <;> simp <;> try omega

/-! ## The claims -/

set_option maxRecDepth 100000 in
/-- C1: the claim states that `iterateSingleCore` and `iterateMultiCore`
produce bit-identical grids from every starting grid.  The code violates
this: on the 5×5 grid whose alive cells are the horizontal blinker
`(2,1),(2,2),(2,3)`, the two strategies produce different grids (the parallel
strategy produces the correct vertical blinker, alive cells
`(1,2),(2,2),(3,2)`, while the lazily-evaluated sequential strategy does
not), because `iterateSingleCore`'s lazy `map`/`filter` pipeline lets later
evaluations observe earlier writes of the same generation. -/
theorem c1_single_vs_multi_blinker :
    Grid.iterateSingleCore blinkerGrid ≠ Grid.iterateMultiCore blinkerGrid
      ∧ Grid.iterateMultiCore blinkerGrid = Grid.init 5 5 [(2, 1), (2, 2), (2, 3)] := by
  decide

set_option maxRecDepth 100000 in
/-- C2: the claim states that within one generation every `neighborChecks`
evaluation reads only the generation-start state.  The code violates this in
`iterateSingleCore`: on the blinker grid, flattened point number 11 is
`(2,1)`, and when the lazy pipeline evaluates it the grid already holds the
value `1` at `(1,2)` written earlier in the same generation (the frozen
start state has `0` there), changing the verdict for `(2,1)`; the final
conjunct records that `iterateSingleCore` is exactly the continuation of the
fold from this intermediate state, i.e. the evaluation of point 11 really
happens against it. -/
theorem c2_single_core_observes_commit :
    blinkerGrid.points.getD 11 (0, 0) = (2, 1)
      ∧ blinkerGrid.cell 1 2 = 0
      ∧ (blinkerGrid.singleCoreUpTo 11).cell 1 2 = 1
      ∧ (blinkerGrid.singleCoreUpTo 11).neighborChecks (2, 1)
          ≠ blinkerGrid.neighborChecks (2, 1)
      ∧ Grid.iterateSingleCore blinkerGrid
          = (blinkerGrid.points.drop 11).foldl Grid.singleStep
              (blinkerGrid.singleCoreUpTo 11) := by
  decide

/-- C3 (counterexample): the claim says the cell at row `r`, column `c` of a
constructed grid is alive exactly when `(r, c)` is in the seed list.  With
`rows = 2`, `cols = 3` and seed list `[(0, 1)]` (row `0 < 2`, column
`1 < 3`), the cell at row `0`, column `1` is dead and the cell at row `1`,
column `0` is alive — the constructor matched the seed as `(column, row)`. -/
theorem c3_counterexample :
    (Grid.init 2 3 [(0, 1)]).cell 0 1 = 0 ∧ (Grid.init 2 3 [(0, 1)]).cell 1 0 = 1 := by
  decide

/-- C3 (amended): for every `rows`, `cols`, seed list and in-bounds `(r, c)`,
the constructed grid's cell at row `r`, column `c` is alive exactly when
`(c, r)` — the seed entry read as `(column, row)` — is in the seed list, and
dead otherwise. -/
theorem c3_constructor_reads_seed_as_col_row (rows cols : Nat)
    (startOn : List (Nat × Nat)) (r c : Nat) (hr : r < rows) (hc : c < cols) :
    (Grid.init rows cols startOn).cell r c = if (c, r) ∈ startOn then 1 else 0 :=
  init_cell rows cols startOn hr hc

theorem c3_witness :
    (1 < 2 ∧ 0 < 3)
      ∧ (Grid.init 2 3 [(0, 1)]).cell 1 0
          = if ((0, 1) : Nat × Nat) ∈ [((0, 1) : Nat × Nat)] then 1 else 0 :=
  ⟨by decide, c3_constructor_reads_seed_as_col_row 2 3 [(0, 1)] 1 0 (by decide) (by decide)⟩

/-- C4: for every grid (with the program's 0/1 cell values) and every
in-bounds position, the neighbor count computed by `neighborChecks` equals
the number of alive cells among the 8 neighbors obtained by offsetting the
position by ±1 in each axis and reducing modulo `rows`/`cols`, the center
itself excluded. -/
theorem c4_count_eq_wrapped_alive (g : Grid) (x y : Nat) (hbin : g.cellsBinary = true)
    (hx : x < g.rows) (hy : y < g.cols) :
    g.neighborCount x y = neighborOffsets.countP (fun de =>
      decide (g.cell (wrapIdx g.rows ((x : Int) + de.1))
        (wrapIdx g.cols ((y : Int) + de.2)) = 1)) := by
  rw [neighborCount_eq_offsets]
  exact sum_map_binary _ _ (fun de _ => cell_le_one_of_cellsBinary hbin _ _)

theorem c4_witness :
    (blinkerGrid.cellsBinary = true ∧ 2 < blinkerGrid.rows ∧ 2 < blinkerGrid.cols)
      ∧ blinkerGrid.neighborCount 2 2 = neighborOffsets.countP (fun de =>
          decide (blinkerGrid.cell (wrapIdx blinkerGrid.rows (((2 : Nat) : Int) + de.1))
            (wrapIdx blinkerGrid.cols (((2 : Nat) : Int) + de.2)) = 1)) :=
  ⟨by decide, c4_count_eq_wrapped_alive blinkerGrid 2 2 (by decide) (by decide) (by decide)⟩

/-- C5: with `n` the neighbor count of an evaluated position: a dead cell
with `n = RESURRECTION_THRESHOLD` yields the update `(position, 1)`; an
alive cell with `n` neither `LIFE_THRESHOLD` nor `RESURRECTION_THRESHOLD`
yields `(position, 0)`; every other case yields `None`. -/
theorem c5_rule_cases (g : Grid) (p : Nat × Nat) :
    (g.cell p.1 p.2 = 0 → g.neighborCount p.1 p.2 = RESURRECTION_THRESHOLD →
      g.neighborChecks p = some (p, 1))
    ∧ (g.cell p.1 p.2 ≠ 0 → g.neighborCount p.1 p.2 ≠ LIFE_THRESHOLD →
        g.neighborCount p.1 p.2 ≠ RESURRECTION_THRESHOLD →
      g.neighborChecks p = some (p, 0))
    ∧ (¬(g.cell p.1 p.2 = 0 ∧ g.neighborCount p.1 p.2 = RESURRECTION_THRESHOLD) →
       ¬(g.cell p.1 p.2 ≠ 0 ∧ g.neighborCount p.1 p.2 ≠ LIFE_THRESHOLD
          ∧ g.neighborCount p.1 p.2 ≠ RESURRECTION_THRESHOLD) →
      g.neighborChecks p = none) := by
  unfold Grid.neighborChecks
  refine ⟨?_, ?_, ?_⟩ <;> intros <;> split_ifs <;> tauto

theorem c5_witness :
    blinkerGrid.neighborChecks (1, 2) = some ((1, 2), 1)
      ∧ blinkerGrid.neighborChecks (2, 1) = some ((2, 1), 0)
      ∧ blinkerGrid.neighborChecks (0, 0) = none :=
  ⟨(c5_rule_cases blinkerGrid (1, 2)).1 (by decide) (by decide),
   (c5_rule_cases blinkerGrid (2, 1)).2.1 (by decide) (by decide) (by decide),
   (c5_rule_cases blinkerGrid (0, 0)).2.2 (by decide) (by decide)⟩

/-- C6: a grid in which every cell is dead is left unchanged (hence still
all-dead) by any number of generations of either stepping strategy. -/
theorem c6_empty_stays_empty (g : Grid) (n : Nat) (hd : g.allDead = true) :
    Grid.iterateSingleCore^[n] g = g ∧ Grid.iterateMultiCore^[n] g = g := by
  have hcell := cell_eq_zero_of_allDead hd
  have hcount : ∀ x y : Nat, g.neighborCount x y = 0 := by
    intro x y
    rw [neighborCount_eq_offsets]
    simp [hcell]
  have hnone : ∀ p ∈ g.points, g.neighborChecks p = none := by
    intro p _
    unfold Grid.neighborChecks
    simp [hcount, hcell, RESURRECTION_THRESHOLD]
  exact ⟨Function.iterate_fixed (iterateSingleCore_of_none hnone) n,
    Function.iterate_fixed (iterateMultiCore_of_none hnone) n⟩

theorem c6_witness :
    (Grid.init 2 3 []).allDead = true
      ∧ Grid.iterateSingleCore^[5] (Grid.init 2 3 []) = Grid.init 2 3 []
      ∧ Grid.iterateMultiCore^[5] (Grid.init 2 3 []) = Grid.init 2 3 [] :=
  ⟨by decide, (c6_empty_stays_empty (Grid.init 2 3 []) 5 (by decide)).1,
    (c6_empty_stays_empty (Grid.init 2 3 []) 5 (by decide)).2⟩

/-- C7: on every sufficiently large grid (at least 4 rows and 4 columns, so
the block's neighborhood does not wrap onto itself) whose only alive cells
are a 2×2 block, one generation of either strategy leaves the grid
bit-identical. -/
theorem c7_block_still_life (rows cols r0 c0 : Nat) (h4r : 4 ≤ rows) (h4c : 4 ≤ cols)
    (hr : r0 + 1 < rows) (hc : c0 + 1 < cols) :
    Grid.iterateSingleCore (blockGrid rows cols r0 c0) = blockGrid rows cols r0 c0
      ∧ Grid.iterateMultiCore (blockGrid rows cols r0 c0) = blockGrid rows cols r0 c0 := by
  have hnone : ∀ p ∈ (blockGrid rows cols r0 c0).points,
      (blockGrid rows cols r0 c0).neighborChecks p = none := by
    intro p hp
    obtain ⟨h1, h2⟩ := mem_points hp
    obtain ⟨x, y⟩ := p
    exact blockGrid_checks_none rows cols r0 c0 (by omega) (by omega) hr hc x y h1 h2
  exact ⟨iterateSingleCore_of_none hnone, iterateMultiCore_of_none hnone⟩

theorem c7_witness :
    Grid.iterateSingleCore (blockGrid 4 5 1 2) = blockGrid 4 5 1 2
      ∧ Grid.iterateMultiCore (blockGrid 4 5 1 2) = blockGrid 4 5 1 2 :=
  c7_block_still_life 4 5 1 2 (by decide) (by decide) (by decide) (by decide)

/-- C8: `run` with a processing argument that is neither `'Single'` nor
`'Multi'` is non-fatal: it prints the error message each iteration, never
steps the grid, adds nothing to the accumulated time sum, and still
completes all `ITERATION_COUNT` iterations, returning normally. -/
theorem c8_invalid_processing_nonfatal (g : Grid) (processing : String)
    (elapsed : Nat → Rat) (hm : processing ≠ "Multi") (hs : processing ≠ "Single") :
    (g.run processing elapsed).grid = g
      ∧ (g.run processing elapsed).printed
          = List.replicate ITERATION_COUNT "Please input a valid processing type."
      ∧ (g.run processing elapsed).timeSum = 0
      ∧ (g.run processing elapsed).loopIters = ITERATION_COUNT := by
  rw [run_invalid hm hs]
  exact ⟨rfl, rfl, rfl, rfl⟩

theorem c8_witness :
    ("Foo" ≠ "Multi" ∧ "Foo" ≠ "Single")
      ∧ ((Grid.init 1 2 []).run "Foo" (fun _ => 1)).grid = Grid.init 1 2 []
      ∧ ((Grid.init 1 2 []).run "Foo" (fun _ => 1)).printed
          = List.replicate ITERATION_COUNT "Please input a valid processing type."
      ∧ ((Grid.init 1 2 []).run "Foo" (fun _ => 1)).timeSum = 0
      ∧ ((Grid.init 1 2 []).run "Foo" (fun _ => 1)).loopIters = ITERATION_COUNT := by
  refine ⟨⟨by decide, by decide⟩, ?_⟩
  have h := c8_invalid_processing_nonfatal (Grid.init 1 2 []) "Foo" (fun _ => 1)
    (by decide) (by decide)
  exact ⟨h.1, h.2.1, h.2.2.1, h.2.2.2⟩

/-- C9: on a grid with at least 3 rows and 3 columns the nine wrapped
coordinates examined by `neighborChecks` at any in-bounds point are pairwise
distinct (so each toroidal neighbor is read exactly once and no wrapped copy
of the center is read); on smaller grids they coincide and each alive cell
is counted once per coincidence: on a 2×3 grid whose only alive cell is
`(1,1)`, the count at `(0,1)` is `2` (the single alive neighbor is hit by
two coincident window slots), and on a 1×4 grid whose only alive cell is the
evaluated point `(0,1)` itself, the count at `(0,1)` is `2` (the center is
included in its own count through its two wrapped row copies). -/
theorem c9_window_distinct_iff_large :
    (∀ (g : Grid) (x y : Nat), 3 ≤ g.rows → 3 ≤ g.cols → x < g.rows → y < g.cols →
        (g.windowCoords x y).Nodup)
      ∧ ¬ ((Grid.mk 2 3 [[0, 0, 0], [0, 1, 0]]).windowCoords 0 1).Nodup
      ∧ (Grid.mk 2 3 [[0, 0, 0], [0, 1, 0]]).neighborCount 0 1 = 2
      ∧ (Grid.mk 1 4 [[0, 1, 0, 0]]).neighborCount 0 1 = 2 := by
  refine ⟨fun g x y h3r h3c hx hy => windowCoords_nodup h3r h3c hx hy, ?_, ?_, ?_⟩
    <;> decide

theorem c9_witness :
    (blinkerGrid.windowCoords 0 4).Nodup :=
  c9_window_distinct_iff_large.1 blinkerGrid 0 4 (by decide) (by decide) (by decide)
    (by decide)

/-- C10: `run` with a processing argument that is neither `'Single'` nor
`'Multi'` leaves every cell of the grid unchanged and returns a mean
iteration time of `0`. -/
theorem c10_invalid_processing_grid_unchanged (g : Grid) (processing : String)
    (elapsed : Nat → Rat) (hm : processing ≠ "Multi") (hs : processing ≠ "Single") :
    (g.run processing elapsed).grid = g ∧ (g.run processing elapsed).meanMs = 0 := by
  rw [run_invalid hm hs]
  exact ⟨rfl, rfl⟩

theorem c10_witness :
    ("Bogus" ≠ "Multi" ∧ "Bogus" ≠ "Single")
      ∧ (blinkerGrid.run "Bogus" (fun n => (n : Rat))).grid = blinkerGrid
      ∧ (blinkerGrid.run "Bogus" (fun n => (n : Rat))).meanMs = 0 :=
  ⟨⟨by decide, by decide⟩,
    c10_invalid_processing_grid_unchanged blinkerGrid "Bogus" (fun n => (n : Rat))
      (by decide) (by decide)⟩
